import Mathlib

/-!
Verification of `first_page.py` (class `BiharElectionScraper`).

The scraper navigates a results portal, enumerates the cross-product of the
district and post dropdown options, submits each combination, extracts table
rows into CSV records and downloads linked documents (photo, affidavit).

Shallow embedding: the browser page, the HTTP layer and the file system are
modelled by an environment `Env` whose fields give, for each interaction, the
outcome the external world produces (an `Option Exn` where `some e` means the
Python call raised exception `e`, or the concrete data the call returns).
Observable effects (CSV rows appended, files written, download attempts,
printed log lines, teardown calls) accumulate in a state `St` threaded through
the functions, which are translated one-to-one from the Python methods.
-/

namespace FirstPage

/-- Exceptions are modelled by their message. -/
abbrev Exn := String

/-- An HTTP response as seen by `requests.get`: status code and body bytes. -/
structure Response where
  status : Nat
  content : List Nat
deriving DecidableEq, Repr

/-- One `<tr>` of the results table, as the extraction code reads it:
the `inner_text` of its `<td>` cells in order, the `src` attribute of the
first `<img>` in cell 13 (`none` when there is no `<img>` or no attribute),
and the `href` of the first `<a>` in cell 14 (`none` when absent). -/
structure Row where
  cells : List String
  imgSrc : Option String
  aHref : Option String
deriving DecidableEq, Repr

/-- Observable state accumulated by a run: `csv` holds the data rows appended
to the output file (the header is modelled separately by `header`), `files`
the download directory (most recent write first, lookup by name), `downloads`
the URLs for which a `download_file` call was made, `log` the printed lines,
and `cleaned` the number of times the teardown step (`cleanup`: close page,
close browser, stop playwright) has run. -/
structure St where
  csv : List (List String)
  files : List (String × List Nat)
  downloads : List String
  log : List String
  cleaned : Nat
deriving DecidableEq, Repr

/-- The empty initial state of a fresh run. -/
def st0 : St := ⟨[], [], [], [], 0⟩

/-- Append one printed line to the log. -/
def logSt (st : St) (m : String) : St := { st with log := st.log ++ [m] }

/-- The external world: for every page interaction the outcome the site
produces, keyed where relevant by the currently selected district/post
option values. -/
structure Env where
  gotoLanding : Option Exn
  menuClick : Option Exn
  gotoResults : Option Exn
  districtOptions : List (String × String)
  postOptions : List (String × String)
  selectDistrict : String → Option Exn
  selectPost : String → Option Exn
  clickShow : String → String → Option Exn
  waitTable : String → String → Option Exn
  tableVisible : String → String → Bool
  tableRows : String → String → List Row
  fetch : String → Except Exn Response
  writeErr : String → Option Exn

/-- Python `str.strip()`: drop leading and trailing whitespace. -/
def strip (s : String) : String :=
  ⟨((s.data.dropWhile Char.isWhitespace).reverse.dropWhile Char.isWhitespace).reverse⟩

/-- Python `candidate_name.replace('/', '_')`. -/
def sanitize (s : String) : String :=
  ⟨s.data.map (fun c => if c = '/' then '_' else c)⟩

/-- `cols.nth(i).inner_text().strip()` for a row. -/
def cellText (row : Row) (i : Nat) : String := strip (row.cells.getD i "")

/-- `self.download_dir`. -/
def download_dir : String := "downloads"

/-- `os.path.join(dir, name)`. -/
def pathJoin (a b : String) : String := a ++ "/" ++ b

/-- The header row written by `ensure_csv_exists` (source lines 24-28). -/
def header : List String :=
  ["District", "Post", "NagarNikay", "WardNo", "ReservationStatus",
   "CandidateName", "GuardianName", "Gender", "Age", "Category",
   "Address", "MobileNo", "CandidatePhotoFile", "AffidavitFile"]

/-- `ensure_csv_exists`: if the output file does not exist, create it with the
header row; an existing file is left as-is. -/
def ensure_csv_exists (file : Option (List (List String))) : List (List String) :=
  match file with
  | some rows => rows
  | none => [header]

/-- The positional correspondence between the header columns and the values
the extraction code writes: which value of a row the column with a given
header name receives. Used to state that appended rows follow header order. -/
def fieldValue (row : Row) (photoFn affFn : String) (h : String) : String :=
  if h = "District" then cellText row 2
  else if h = "Post" then cellText row 1
  else if h = "NagarNikay" then cellText row 3
  else if h = "WardNo" then cellText row 4
  else if h = "ReservationStatus" then cellText row 5
  else if h = "CandidateName" then cellText row 6
  else if h = "GuardianName" then cellText row 7
  else if h = "Gender" then cellText row 8
  else if h = "Age" then cellText row 9
  else if h = "Category" then cellText row 10
  else if h = "Address" then cellText row 11
  else if h = "MobileNo" then cellText row 12
  else if h = "CandidatePhotoFile" then photoFn
  else if h = "AffidavitFile" then affFn
  else ""

/-- `get_select_options`: read the option list of a dropdown, looping
`for i in range(1, count)` and appending `(value, text)` — skips index 0
(the "Select" placeholder). The dropdown content is the `opts` list. -/
def get_select_options (opts : List (String × String)) : List (String × String) :=
  let count := opts.length
  ((List.range count).drop 1).foldl (fun values i => values ++ [opts.getD i ("", "")]) []

/-- The body of the `try` in `download_file`: `requests.get(url)`,
`raise_for_status()` (raises for 4xx/5xx), then open the destination for
writing and write the response bytes. Any failure is an `Except.error`. -/
def download_body (env : Env) (url filename : String) (st : St) : Except Exn St :=
  match env.fetch url with
  | .error e => .error e
  | .ok r =>
    if 400 ≤ r.status ∧ r.status < 600 then .error ("HTTPError: " ++ toString r.status)
    else
      match env.writeErr filename with
      | some e => .error e
      | none =>
        .ok { st with files := (filename, r.content) :: st.files,
                      log := st.log ++ ["✅ Downloaded: " ++ filename] }

/-- `download_file(url, filename)`: records the attempt, runs the body and
catches every exception, printing a failure line instead of raising. -/
def download_file (env : Env) (url filename : String) (st : St) : St :=
  let st1 := { st with downloads := st.downloads ++ [url] }
  match download_body env url filename st1 with
  | .ok st2 => st2
  | .error e => { st1 with log := st1.log ++ ["❌ Failed to download " ++ url ++ ": " ++ e] }

/-- The body of the row loop in `extract_table_data` (source lines 82-123):
skip the row when it has fewer than 15 cells, otherwise read the text
columns, resolve the photo/affidavit references, download the present ones
and append the record to the CSV. -/
def extract_row (env : Env) (st : St) (row : Row) : St :=
  if row.cells.length < 15 then st
  else
    let post_name := cellText row 1
    let district_name := cellText row 2
    let nagarnikay := cellText row 3
    let wardno := cellText row 4
    let reservation_status := cellText row 5
    let candidate_name := cellText row 6
    let guardian_name := cellText row 7
    let gender := cellText row 8
    let age := cellText row 9
    let category := cellText row 10
    let address := cellText row 11
    let mobile_no := cellText row 12
    let photo_url := row.imgSrc.getD ""
    let affidavit_url := row.aHref.getD ""
    let photo_filename :=
      if photo_url = "" then ""
      else pathJoin download_dir (sanitize candidate_name ++ "_photo.jpg")
    let st1 :=
      if photo_url = "" then st
      else download_file env photo_url photo_filename st
    let affidavit_filename :=
      if affidavit_url = "" then ""
      else pathJoin download_dir (sanitize candidate_name ++ "_affidavit.pdf")
    let st2 :=
      if affidavit_url = "" then st1
      else download_file env affidavit_url affidavit_filename st1
    { st2 with csv := st2.csv ++
        [[district_name, post_name, nagarnikay, wardno, reservation_status,
          candidate_name, guardian_name, gender, age, category,
          address, mobile_no, photo_filename, affidavit_filename]] }

/-- `extract_table_data(district, post)` with the currently selected option
values `dVal`, `pVal`: wait for the table selector (may raise a timeout),
skip with a log line when the table is not visible, otherwise process every
row. The `district`/`post` parameters mirror the Python signature. -/
def extract_table_data (env : Env) (dVal pVal district post : String) (st : St) :
    St × Option Exn :=
  match env.waitTable dVal pVal with
  | some e => (st, some e)
  | none =>
    if env.tableVisible dVal pVal then
      ((env.tableRows dVal pVal).foldl (extract_row env) st, none)
    else
      (logSt st "⛔ Table not visible, skipping...", none)

/-- `select_combination_and_submit(district_val, post_val)`: select both
dropdowns and click the show button; the first raising step aborts it. -/
def select_combination_and_submit (env : Env) (district_val post_val : String) :
    Option Exn :=
  match env.selectDistrict district_val with
  | some e => some e
  | none =>
    match env.selectPost post_val with
    | some e => some e
    | none => env.clickShow district_val post_val

/-- `navigate()`: landing page, menu-expansion click, results page. Each step
may raise; a raise aborts navigation. -/
def navigate (env : Env) : Option Exn :=
  match env.gotoLanding with
  | some e => some e
  | none =>
    match env.menuClick with
    | some e => some e
    | none => env.gotoResults

/-- The body of the inner post loop (source lines 136-142): print the
progress line, select and submit the combination (a raise here propagates),
then extract the table inside a `try` whose handler logs and swallows. -/
def inner_step (env : Env) (d p : String × String) (st : St) : St × Option Exn :=
  let stl := logSt st ("\n▶️ Scraping for District: " ++ d.2 ++ ", Post: " ++ p.2)
  match select_combination_and_submit env d.1 p.1 with
  | some e => (stl, some e)
  | none =>
    match extract_table_data env d.1 p.1 d.2 p.2 stl with
    | (st2, none) => (st2, none)
    | (st2, some e) => (logSt st2 ("❌ Error while extracting table: " ++ e), none)

/-- The inner `for p_val, p_text in posts` loop: run `inner_step` for each
post; an exception from a step propagates out of the loop. -/
def posts_loop (env : Env) (d : String × String) (posts : List (String × String))
    (st : St) : St × Option Exn :=
  match posts with
  | [] => (st, none)
  | p :: rest =>
    match inner_step env d p st with
    | (st1, none) => posts_loop env d rest st1
    | (st1, some e) => (st1, some e)

/-- One iteration of the outer district loop (source lines 132-142): select
the district (a raise propagates), then run the post loop. -/
def district_step (env : Env) (posts : List (String × String)) (d : String × String)
    (st : St) : St × Option Exn :=
  match env.selectDistrict d.1 with
  | some e => (st, some e)
  | none => posts_loop env d posts st

/-- The outer `for d_val, d_text in districts` loop. -/
def districts_loop (env : Env) (posts : List (String × String))
    (districts : List (String × String)) (st : St) : St × Option Exn :=
  match districts with
  | [] => (st, none)
  | d :: rest =>
    match district_step env posts d st with
    | (st1, none) => districts_loop env posts rest st1
    | (st1, some e) => (st1, some e)

/-- The body of the `try` in `run_all_combinations` (source lines 127-142):
navigate, read both option lists once, then the nested loops. -/
def run_body (env : Env) (st : St) : St × Option Exn :=
  match navigate env with
  | some e => (st, some e)
  | none =>
    let districts := get_select_options env.districtOptions
    let posts := get_select_options env.postOptions
    districts_loop env posts districts st

/-- `cleanup()`: close the page, close the browser, stop playwright —
modelled as one teardown step, counted by `cleaned`. -/
def cleanup (st : St) : St := { st with cleaned := st.cleaned + 1 }

/-- `run_all_combinations()`: the body inside `try`, an `except` that prints
the fatal error, and a `finally` that always runs `cleanup`. -/
def run_all_combinations (env : Env) (st : St) : St :=
  match run_body env st with
  | (st1, none) => cleanup st1
  | (st1, some e) => cleanup (logSt st1 ("❌ Fatal Error: " ++ e))

/-- The bytes currently stored in the download directory under a name
(the most recent write wins). -/
def fileContent (st : St) (n : String) : Option (List Nat) :=
  List.lookup n st.files

/-! ### Concrete fixtures used by witnesses and counterexamples -/

/-- A well-formed 15-cell table row with both document references present. -/
def rowFull : Row :=
  { cells := ["0", "PostA", "DistA", "Nag", "W1", "Res", "Cand", "Guard",
              "M", "30", "Gen", "Addr", "999", "", ""],
    imgSrc := some "http://img", aHref := some "http://pdf" }

/-- A 15-cell row with no document references whose district cell ("NOTD1")
differs from the only selectable district label ("D1"). -/
def rowNoDocs : Row :=
  { cells := ["0", "PostX", "NOTD1", "Nag", "W1", "Res", "Cand", "Guard",
              "M", "30", "Gen", "Addr", "999", "", ""],
    imgSrc := none, aHref := none }

/-- A malformed row with fewer than 15 cells. -/
def rowShort : Row := { cells := ["a", "b", "c"], imgSrc := some "http://img", aHref := none }

/-- A benign environment: every interaction succeeds, one real district and
one real post behind the placeholders, one full row in every table, all
fetches return status 200 with bytes [1, 2, 3]. -/
def envHappy : Env :=
  { gotoLanding := none, menuClick := none, gotoResults := none,
    districtOptions := [("0", "Select District"), ("1", "D1")],
    postOptions := [("0", "Select Post"), ("2", "P1")],
    selectDistrict := fun _ => none, selectPost := fun _ => none,
    clickShow := fun _ _ => none,
    waitTable := fun _ _ => none, tableVisible := fun _ _ => true,
    tableRows := fun _ _ => [rowFull],
    fetch := fun _ => .ok ⟨200, [1, 2, 3]⟩,
    writeErr := fun _ => none }

/-- Like `envHappy` but every HTTP fetch returns a 404. -/
def envFetch404 : Env := { envHappy with fetch := fun _ => .ok ⟨404, []⟩ }

/-- Two posts; the show-button click raises for the first post ("10") and
would succeed for the second ("20"), whose table holds a row. -/
def envClickBoom : Env :=
  { envHappy with
    postOptions := [("0", "Select Post"), ("10", "P1"), ("20", "P2")],
    clickShow := fun _ p => if p = "10" then some "boom" else none }

/-- Like `envHappy` but `wait_for_selector` raises a timeout for every
combination. -/
def envWaitRaise : Env := { envHappy with waitTable := fun _ _ => some "Timeout 5000ms exceeded" }

/-- Like `envHappy` but the menu-expansion click raises. -/
def envMenuFail : Env := { envHappy with menuClick := some "menufail" }

/-- Like `envHappy` but every table holds `rowNoDocs`, whose district cell
does not match the selected district label. -/
def envWrongCells : Env := { envHappy with tableRows := fun _ _ => [rowNoDocs] }

/-! ### Helper lemmas -/

lemma foldl_push_eq_map {α β : Type} (f : α → β) (l : List α) (acc : List β) :
    l.foldl (fun a x => a ++ [f x]) acc = acc ++ l.map f := by
  induction l generalizing acc with
  | nil => simp
  | cons x xs ih => simp [ih]

lemma map_getD_range {α : Type} (l : List α) (d : α) :
    (List.range l.length).map (fun i => l.getD i d) = l := by
  induction l with
  | nil => simp
  | cons a t ih =>
    rw [List.length_cons, List.range_succ_eq_map, List.map_cons, List.map_map]
    simp only [List.getD_cons_zero, Function.comp_def, List.getD_cons_succ]
    rw [ih]

lemma range_drop_one_map_getD {α : Type} (l : List α) (d : α) :
    ((List.range l.length).drop 1).map (fun i => l.getD i d) = l.drop 1 := by
  cases l with
  | nil => simp
  | cons a t =>
    rw [List.length_cons, List.range_succ_eq_map]
    simp only [List.drop_succ_cons, List.drop_zero, List.map_map,
      Function.comp_def, List.getD_cons_succ]
    rw [map_getD_range]

lemma download_file_cases (env : Env) (u fn : String) (st : St) :
    (∃ r, env.fetch u = .ok r ∧ ¬(400 ≤ r.status ∧ r.status < 600) ∧
      env.writeErr fn = none ∧
      download_file env u fn st =
        { st with downloads := st.downloads ++ [u],
                  files := (fn, r.content) :: st.files,
                  log := st.log ++ ["✅ Downloaded: " ++ fn] }) ∨
    (∃ e, download_file env u fn st =
        { st with downloads := st.downloads ++ [u],
                  log := st.log ++ ["❌ Failed to download " ++ u ++ ": " ++ e] }) := by
  unfold download_file download_body
  cases hf : env.fetch u with
  | error e => right; exact ⟨e, rfl⟩
  | ok r =>
    by_cases hs : 400 ≤ r.status ∧ r.status < 600
    · right; exact ⟨"HTTPError: " ++ toString r.status, by simp [hs]⟩
    · cases hw : env.writeErr fn with
      | some e => right; exact ⟨e, by simp [hs, hw]⟩
      | none => left; exact ⟨r, rfl, hs, rfl, by simp [hs, hw]⟩

lemma download_file_csv (env : Env) (u fn : String) (st : St) :
    (download_file env u fn st).csv = st.csv := by
  rcases download_file_cases env u fn st with ⟨r, _, _, _, h⟩ | ⟨e, h⟩ <;> rw [h]

lemma download_file_cleaned (env : Env) (u fn : String) (st : St) :
    (download_file env u fn st).cleaned = st.cleaned := by
  rcases download_file_cases env u fn st with ⟨r, _, _, _, h⟩ | ⟨e, h⟩ <;> rw [h]

lemma download_file_downloads (env : Env) (u fn : String) (st : St) :
    (download_file env u fn st).downloads = st.downloads ++ [u] := by
  rcases download_file_cases env u fn st with ⟨r, _, _, _, h⟩ | ⟨e, h⟩ <;> rw [h]

lemma download_file_log_mono (env : Env) (u fn : String) (st : St) (x : String)
    (hx : x ∈ st.log) : x ∈ (download_file env u fn st).log := by
  rcases download_file_cases env u fn st with ⟨r, _, _, _, h⟩ | ⟨e, h⟩ <;> rw [h] <;>
    exact List.mem_append_left _ hx

lemma download_file_fail_log (env : Env) (u fn : String) (st : St)
    (hfail : ∀ r, env.fetch u = .ok r → 400 ≤ r.status ∧ r.status < 600) :
    ∃ e, ("❌ Failed to download " ++ u ++ ": " ++ e) ∈ (download_file env u fn st).log := by
  unfold download_file download_body
  cases hf : env.fetch u with
  | error e => exact ⟨e, by simp⟩
  | ok r =>
    have hs := hfail r hf
    exact ⟨"HTTPError: " ++ toString r.status, by simp [hs]⟩

lemma download_body_error_st (env : Env) (u fn : String) {st st2 : St} (e : Exn)
    (h : download_body env u fn st = .error e) :
    download_body env u fn st2 = .error e := by
  unfold download_body at h ⊢
  cases hf : env.fetch u with
  | error e2 =>
    rw [hf] at h
    exact h
  | ok r =>
    rw [hf] at h
    dsimp only at h ⊢
    by_cases hs : 400 ≤ r.status ∧ r.status < 600
    · rw [if_pos hs] at h ⊢
      exact h
    · rw [if_neg hs] at h ⊢
      cases hw : env.writeErr fn with
      | some e2 =>
        rw [hw] at h
        exact h
      | none =>
        rw [hw] at h
        simp at h

lemma download_file_error (env : Env) (u fn : String) (st : St) (e : Exn)
    (he : download_body env u fn { st with downloads := st.downloads ++ [u] } = .error e) :
    download_file env u fn st =
      { st with downloads := st.downloads ++ [u],
                log := st.log ++ ["❌ Failed to download " ++ u ++ ": " ++ e] } := by
  unfold download_file
  dsimp only
  rw [he]

lemma header_map_fieldValue (row : Row) (pf af : String) :
    header.map (fieldValue row pf af) =
      [cellText row 2, cellText row 1, cellText row 3, cellText row 4, cellText row 5,
       cellText row 6, cellText row 7, cellText row 8, cellText row 9, cellText row 10,
       cellText row 11, cellText row 12, pf, af] := by
  simp [header, fieldValue]

lemma extract_row_csv_eq (env : Env) (st : St) (row : Row)
    (h : ¬row.cells.length < 15) :
    (extract_row env st row).csv = st.csv ++
      [[cellText row 2, cellText row 1, cellText row 3, cellText row 4, cellText row 5,
        cellText row 6, cellText row 7, cellText row 8, cellText row 9, cellText row 10,
        cellText row 11, cellText row 12,
        (if row.imgSrc.getD "" = "" then ""
         else pathJoin download_dir (sanitize (cellText row 6) ++ "_photo.jpg")),
        (if row.aHref.getD "" = "" then ""
         else pathJoin download_dir (sanitize (cellText row 6) ++ "_affidavit.pdf"))]] ∧
    (extract_row env st row).downloads = st.downloads
      ++ (if row.imgSrc.getD "" = "" then [] else [row.imgSrc.getD ""])
      ++ (if row.aHref.getD "" = "" then [] else [row.aHref.getD ""]) := by
  unfold extract_row
  rw [if_neg h]
  dsimp only
  by_cases hp : row.imgSrc.getD "" = "" <;> by_cases ha : row.aHref.getD "" = "" <;>
    simp [hp, ha, download_file_csv, download_file_downloads, List.append_assoc]

lemma extract_row_log_eq (env : Env) (st : St) (row : Row)
    (h : ¬row.cells.length < 15) :
    (extract_row env st row).log =
      ((if row.aHref.getD "" = ""
        then (if row.imgSrc.getD "" = "" then st
              else download_file env (row.imgSrc.getD "")
                (pathJoin download_dir (sanitize (cellText row 6) ++ "_photo.jpg")) st)
        else download_file env (row.aHref.getD "")
          (pathJoin download_dir (sanitize (cellText row 6) ++ "_affidavit.pdf"))
          (if row.imgSrc.getD "" = "" then st
           else download_file env (row.imgSrc.getD "")
             (pathJoin download_dir (sanitize (cellText row 6) ++ "_photo.jpg")) st))).log := by
  unfold extract_row
  rw [if_neg h]
  dsimp only
  by_cases hp : row.imgSrc.getD "" = "" <;> by_cases ha : row.aHref.getD "" = "" <;>
    simp [hp, ha]

/-- The state extension relation preserved by every step of a run: the
teardown counter is untouched and the CSV only grows, by rows that follow
the header column order. -/
def Ext (st st2 : St) : Prop :=
  st2.cleaned = st.cleaned ∧
  ∃ l, st2.csv = st.csv ++ l ∧
    ∀ r ∈ l, ∃ row pf af, r = header.map (fieldValue row pf af)

lemma Ext_refl (st : St) : Ext st st := ⟨rfl, [], by simp, by simp⟩

lemma Ext_trans {a b c : St} (h1 : Ext a b) (h2 : Ext b c) : Ext a c := by
  obtain ⟨hc1, l1, e1, g1⟩ := h1
  obtain ⟨hc2, l2, e2, g2⟩ := h2
  refine ⟨hc2.trans hc1, l1 ++ l2, ?_, ?_⟩
  · rw [e2, e1, List.append_assoc]
  · intro r hr
    rcases List.mem_append.mp hr with h | h
    · exact g1 r h
    · exact g2 r h

lemma Ext_logSt (st : St) (m : String) : Ext st (logSt st m) :=
  ⟨rfl, [], by simp [logSt], by simp⟩

lemma Ext_download_file (env : Env) (u fn : String) (st : St) :
    Ext st (download_file env u fn st) :=
  ⟨download_file_cleaned env u fn st, [],
    by simp [download_file_csv], by simp⟩

lemma Ext_append_row (st base : St) (rec : List String)
    (hc : base.cleaned = st.cleaned) (hcsv : base.csv = st.csv)
    (hrec : ∃ row pf af, rec = header.map (fieldValue row pf af)) :
    Ext st { base with csv := base.csv ++ [rec] } := by
  refine ⟨hc, [rec], by rw [hcsv], ?_⟩
  intro r hr
  rw [List.mem_singleton] at hr
  subst hr
  exact hrec

lemma Ext_extract_row (env : Env) (st : St) (row : Row) :
    Ext st (extract_row env st row) := by
  unfold extract_row
  by_cases h : row.cells.length < 15
  · rw [if_pos h]; exact Ext_refl st
  · rw [if_neg h]
    simp only
    by_cases hp : row.imgSrc.getD "" = "" <;> by_cases ha : row.aHref.getD "" = "" <;>
      simp only [hp, ha, if_pos, if_neg, if_true, if_false, ite_true, ite_false] <;>
      exact Ext_append_row st _ _
        (by simp [download_file_cleaned]) (by simp [download_file_csv])
        ⟨row, _, _, (header_map_fieldValue row _ _).symm⟩

lemma Ext_rows_foldl (env : Env) (rows : List Row) :
    ∀ st : St, Ext st (rows.foldl (extract_row env) st) := by
  induction rows with
  | nil => intro st; exact Ext_refl st
  | cons r rest ih =>
    intro st
    exact Ext_trans (Ext_extract_row env st r) (ih (extract_row env st r))

lemma Ext_extract_table_data (env : Env) (dVal pVal district post : String) (st : St) :
    Ext st (extract_table_data env dVal pVal district post st).1 := by
  unfold extract_table_data
  cases env.waitTable dVal pVal with
  | some e => exact Ext_refl st
  | none =>
    by_cases hv : env.tableVisible dVal pVal
    · simp only [hv, if_true]
      exact Ext_rows_foldl env _ st
    · simp only [hv, if_false, Bool.false_eq_true]
      exact Ext_logSt st _

lemma Ext_inner_step (env : Env) (d p : String × String) (st : St) :
    Ext st (inner_step env d p st).1 := by
  unfold inner_step
  cases select_combination_and_submit env d.1 p.1 with
  | some e => exact Ext_logSt st _
  | none =>
    dsimp only
    rcases hx : extract_table_data env d.1 p.1 d.2 p.2
        (logSt st ("\n▶️ Scraping for District: " ++ d.2 ++ ", Post: " ++ p.2)) with ⟨st2, o⟩
    have hext : Ext (logSt st ("\n▶️ Scraping for District: " ++ d.2 ++ ", Post: " ++ p.2)) st2 := by
      have h2 := Ext_extract_table_data env d.1 p.1 d.2 p.2
        (logSt st ("\n▶️ Scraping for District: " ++ d.2 ++ ", Post: " ++ p.2))
      rwa [hx] at h2
    cases o with
    | none => exact Ext_trans (Ext_logSt st _) hext
    | some e =>
      exact Ext_trans (Ext_logSt st _) (Ext_trans hext (Ext_logSt st2 _))

lemma Ext_posts_loop (env : Env) (d : String × String) (posts : List (String × String)) :
    ∀ st : St, Ext st (posts_loop env d posts st).1 := by
  induction posts with
  | nil => intro st; exact Ext_refl st
  | cons p rest ih =>
    intro st
    rw [posts_loop]
    rcases hi : inner_step env d p st with ⟨st1, o⟩
    have h1 : Ext st st1 := by
      have := Ext_inner_step env d p st
      rwa [hi] at this
    cases o with
    | none => exact Ext_trans h1 (ih st1)
    | some e => exact h1

lemma Ext_district_step (env : Env) (posts : List (String × String))
    (d : String × String) (st : St) : Ext st (district_step env posts d st).1 := by
  unfold district_step
  cases env.selectDistrict d.1 with
  | some e => exact Ext_refl st
  | none => exact Ext_posts_loop env d posts st

lemma Ext_districts_loop (env : Env) (posts districts : List (String × String)) :
    ∀ st : St, Ext st (districts_loop env posts districts st).1 := by
  induction districts with
  | nil => intro st; exact Ext_refl st
  | cons d rest ih =>
    intro st
    rw [districts_loop]
    rcases hd : district_step env posts d st with ⟨st1, o⟩
    have h1 : Ext st st1 := by
      have := Ext_district_step env posts d st
      rwa [hd] at this
    cases o with
    | none => exact Ext_trans h1 (ih st1)
    | some e => exact h1

lemma Ext_run_body (env : Env) (st : St) : Ext st (run_body env st).1 := by
  unfold run_body
  cases navigate env with
  | some e => exact Ext_refl st
  | none => exact Ext_districts_loop env _ _ st

/-- Every run ends with exactly one application of `cleanup` to a state the
body of the run produced, and the body preserves the teardown counter and
only appends header-shaped rows to the CSV. -/
lemma run_ext (env : Env) (st : St) :
    ∃ st1, run_all_combinations env st = cleanup st1 ∧ Ext st st1 := by
  unfold run_all_combinations
  rcases hb : run_body env st with ⟨st1, o⟩
  have h1 : Ext st st1 := by
    have := Ext_run_body env st
    rwa [hb] at this
  cases o with
  | none => exact ⟨st1, rfl, h1⟩
  | some e => exact ⟨logSt st1 _, rfl, Ext_trans h1 (Ext_logSt st1 _)⟩

/-! ### Claim theorems -/

/-- C5: for every dropdown option list of length n ≥ 1, `get_select_options`
returns exactly the options at indices 1 through n-1 in their source order:
it excludes exactly the one leading placeholder entry at index 0 and
preserves the relative order of the remaining entries. -/
theorem get_select_options_skips_placeholder (opts : List (String × String))
    (h : 1 ≤ opts.length) :
    get_select_options opts = opts.drop 1 ∧
    (get_select_options opts).length = opts.length - 1 := by
  have key : get_select_options opts = opts.drop 1 := by
    unfold get_select_options
    rw [foldl_push_eq_map]
    simpa using range_drop_one_map_getD opts ("", "")
  exact ⟨key, by rw [key, List.length_drop]⟩

/-- Witness for C5 at a concrete three-entry option list. -/
theorem get_select_options_skips_placeholder_witness :
    get_select_options [("0", "Select"), ("1", "A"), ("2", "B")] =
      [("0", "Select"), ("1", "A"), ("2", "B")].drop 1 ∧
    (get_select_options [("0", "Select"), ("1", "A"), ("2", "B")]).length =
      [("0", "Select"), ("1", "A"), ("2", "B")].length - 1 :=
  get_select_options_skips_placeholder [("0", "Select"), ("1", "A"), ("2", "B")]
    (by decide)

/-- C6: a table row with fewer than 15 cells is skipped without error: the
state is unchanged, so zero records are appended and zero downloads are
attempted for it. -/
theorem short_row_skipped (env : Env) (st : St) (row : Row)
    (h : row.cells.length < 15) : extract_row env st row = st := by
  unfold extract_row
  rw [if_pos h]

/-- Witness for C6 at a concrete three-cell row. -/
theorem short_row_skipped_witness : extract_row envHappy st0 rowShort = st0 :=
  short_row_skipped envHappy st0 rowShort (by decide)

/-- C8: the teardown step runs on every termination path of
`run_all_combinations` — normal completion or fatal exception — exactly
once, as the last step before the function returns. -/
theorem teardown_runs_exactly_once (env : Env) (st : St) :
    ∃ st1, run_all_combinations env st = cleanup st1 ∧
      st1.cleaned = st.cleaned ∧
      (run_all_combinations env st).cleaned = st.cleaned + 1 := by
  obtain ⟨st1, hrun, hext⟩ := run_ext env st
  exact ⟨st1, hrun, hext.1, by rw [hrun]; show st1.cleaned + 1 = st.cleaned + 1; rw [hext.1]⟩

/-- C4: the startup header has 14 columns, and every row appended to the
sink by a run has exactly `header.length` fields whose order follows the
header column order (the value in each position is the one `fieldValue`
assigns to that header name). -/
theorem appended_rows_match_header :
    header.length = 14 ∧
    ∀ env st r, r ∈ (run_all_combinations env st).csv →
      r ∈ st.csv ∨
      (r.length = header.length ∧ ∃ row pf af, r = header.map (fieldValue row pf af)) := by
  refine ⟨rfl, ?_⟩
  intro env st r hr
  obtain ⟨st1, hrun, _, l, hcsv, hgood⟩ := run_ext env st
  rw [hrun] at hr
  have hr2 : r ∈ st1.csv := hr
  rw [hcsv] at hr2
  rcases List.mem_append.mp hr2 with h | h
  · exact Or.inl h
  · obtain ⟨row, pf, af, hrow⟩ := hgood r h
    exact Or.inr ⟨by rw [hrow, List.length_map], row, pf, af, hrow⟩

/-- Witness for C4: the single record of a happy-path run is header-shaped. -/
theorem appended_rows_match_header_witness :
    (["DistA", "PostA", "Nag", "W1", "Res", "Cand", "Guard", "M", "30", "Gen",
      "Addr", "999", "downloads/Cand_photo.jpg", "downloads/Cand_affidavit.pdf"]
        ∈ st0.csv) ∨
    ((["DistA", "PostA", "Nag", "W1", "Res", "Cand", "Guard", "M", "30", "Gen",
       "Addr", "999", "downloads/Cand_photo.jpg", "downloads/Cand_affidavit.pdf"] :
        List String).length = header.length ∧
      ∃ row pf af,
        ["DistA", "PostA", "Nag", "W1", "Res", "Cand", "Guard", "M", "30", "Gen",
         "Addr", "999", "downloads/Cand_photo.jpg", "downloads/Cand_affidavit.pdf"] =
          header.map (fieldValue row pf af)) :=
  appended_rows_match_header.2 envHappy st0
    ["DistA", "PostA", "Nag", "W1", "Res", "Cand", "Guard", "M", "30", "Gen",
     "Addr", "999", "downloads/Cand_photo.jpg", "downloads/Cand_affidavit.pdf"]
    (by decide)

/-- C7: in every processed table row, a document reference (photo image or
affidavit link) that is absent or has an empty source URL yields the empty
string in the corresponding path field of the appended record, and no
download call is made for that document (the download-attempt list gains
only the non-empty URLs). -/
theorem empty_doc_ref_no_download (env : Env) (st : St) (row : Row)
    (h15 : 15 ≤ row.cells.length) :
    ∃ r, (extract_row env st row).csv = st.csv ++ [r] ∧
      (row.imgSrc.getD "" = "" → r.getD 12 "" = "") ∧
      (row.aHref.getD "" = "" → r.getD 13 "" = "") ∧
      (extract_row env st row).downloads = st.downloads
        ++ (if row.imgSrc.getD "" = "" then [] else [row.imgSrc.getD ""])
        ++ (if row.aHref.getD "" = "" then [] else [row.aHref.getD ""]) := by
  obtain ⟨hcsv, hdl⟩ := extract_row_csv_eq env st row (not_lt.mpr h15)
  refine ⟨_, hcsv, ?_, ?_, hdl⟩
  · intro hp
    simp [List.getD_cons_succ, List.getD_cons_zero, hp]
  · intro ha
    simp [List.getD_cons_succ, List.getD_cons_zero, ha]

/-- Witness for C7: a row whose document references are both absent yields a
record with empty path fields and no download attempts. -/
theorem empty_doc_ref_no_download_witness :
    ∃ r, (extract_row envHappy st0 rowNoDocs).csv = st0.csv ++ [r] ∧
      (rowNoDocs.imgSrc.getD "" = "" → r.getD 12 "" = "") ∧
      (rowNoDocs.aHref.getD "" = "" → r.getD 13 "" = "") ∧
      (extract_row envHappy st0 rowNoDocs).downloads = st0.downloads
        ++ (if rowNoDocs.imgSrc.getD "" = "" then [] else [rowNoDocs.imgSrc.getD ""])
        ++ (if rowNoDocs.aHref.getD "" = "" then [] else [rowNoDocs.aHref.getD ""]) :=
  empty_doc_ref_no_download envHappy st0 rowNoDocs (by decide)

/-- C10: `download_file` is total at its interface: every call returns
normally (the CSV and teardown counter are untouched and exactly one
attempt is recorded, whatever the environment does); on success the
destination file holds exactly the response bytes and a success line is
logged; when the fetch raises, or returns a 4xx/5xx status, no file is
written and only a failure line naming the URL is logged. -/
theorem download_file_total_and_exact (env : Env) (u fn : String) (st : St) :
    ((download_file env u fn st).csv = st.csv ∧
     (download_file env u fn st).cleaned = st.cleaned ∧
     (download_file env u fn st).downloads = st.downloads ++ [u]) ∧
    (∀ r, env.fetch u = .ok r → r.status < 400 → env.writeErr fn = none →
      fileContent (download_file env u fn st) fn = some r.content ∧
      ("✅ Downloaded: " ++ fn) ∈ (download_file env u fn st).log) ∧
    (∀ e, env.fetch u = .error e →
      (download_file env u fn st).files = st.files ∧
      ("❌ Failed to download " ++ u ++ ": " ++ e) ∈ (download_file env u fn st).log) ∧
    (∀ r, env.fetch u = .ok r → 400 ≤ r.status → r.status < 600 →
      (download_file env u fn st).files = st.files ∧
      ("❌ Failed to download " ++ u ++ ": " ++ ("HTTPError: " ++ toString r.status))
        ∈ (download_file env u fn st).log) := by
  refine ⟨⟨download_file_csv env u fn st, download_file_cleaned env u fn st,
    download_file_downloads env u fn st⟩, ?_, ?_, ?_⟩
  · intro r hf hs hw
    have hns : ¬(400 ≤ r.status ∧ r.status < 600) := by omega
    unfold download_file download_body
    rw [hf]
    dsimp only
    rw [if_neg hns, hw]
    dsimp only
    exact ⟨by simp [fileContent, List.lookup], by simp⟩
  · intro e hf
    unfold download_file download_body
    rw [hf]
    dsimp only
    exact ⟨rfl, by simp⟩
  · intro r hf h4 h6
    unfold download_file download_body
    rw [hf]
    dsimp only
    rw [if_pos (And.intro h4 h6)]
    dsimp only
    exact ⟨rfl, by simp⟩

/-- Witness for C10: a successful fetch stores exactly the response bytes. -/
theorem download_file_total_and_exact_witness :
    fileContent (download_file envHappy "http://img" "f.jpg" st0) "f.jpg" = some [1, 2, 3] ∧
    ("✅ Downloaded: " ++ "f.jpg") ∈ (download_file envHappy "http://img" "f.jpg" st0).log :=
  (download_file_total_and_exact envHappy "http://img" "f.jpg" st0).2.1
    ⟨200, [1, 2, 3]⟩ rfl (by decide) rfl

/-- C1 counterexample: in `envClickBoom` the show-button click of the first
combination (D1, P1) raises "boom". The exception escapes the
per-combination handler and is caught only by the run-level fatal handler:
the run logs a fatal error, appends no record, and never attempts the
second combination (D1, P2) even though its table holds a row — refuting
the claim that no exception originating in the processing of one
combination ever propagates past that pair or aborts the outer loop. -/
theorem submit_exception_aborts_enumeration :
    (run_all_combinations envClickBoom st0).csv = [] ∧
    "\n▶️ Scraping for District: D1, Post: P2" ∉ (run_all_combinations envClickBoom st0).log ∧
    "❌ Fatal Error: boom" ∈ (run_all_combinations envClickBoom st0).log ∧
    envClickBoom.tableRows "1" "20" ≠ [] := by
  decide

/-- C1 (amended): only the table-extraction step is protected at
per-combination granularity. Whenever the select-and-submit step of a
combination succeeds, the combination step raises no exception (whatever
`extract_table_data` does), the post loop continues with the remaining
combinations, and an extraction exception is logged with its message; but
an exception in `select_combination_and_submit` itself propagates out of
the loop (see the counterexample). -/
theorem extract_exceptions_caught_per_combination (env : Env)
    (d p : String × String) (ps : List (String × String)) (st : St)
    (h : select_combination_and_submit env d.1 p.1 = none) :
    (inner_step env d p st).2 = none ∧
    posts_loop env d (p :: ps) st = posts_loop env d ps (inner_step env d p st).1 ∧
    ∀ e, (extract_table_data env d.1 p.1 d.2 p.2
            (logSt st ("\n▶️ Scraping for District: " ++ d.2 ++ ", Post: " ++ p.2))).2 = some e →
      ("❌ Error while extracting table: " ++ e) ∈ (inner_step env d p st).1.log := by
  have hin : (inner_step env d p st).2 = none := by
    unfold inner_step
    dsimp only
    rw [h]
    rcases hx : extract_table_data env d.1 p.1 d.2 p.2
        (logSt st ("\n▶️ Scraping for District: " ++ d.2 ++ ", Post: " ++ p.2)) with ⟨st2, o⟩
    cases o <;> rfl
  refine ⟨hin, ?_, ?_⟩
  · rw [posts_loop]
    rcases hi : inner_step env d p st with ⟨st1, o⟩
    have ho : o = none := by
      have h2 := hin
      rw [hi] at h2
      exact h2
    subst ho
    rfl
  · intro e he
    unfold inner_step
    dsimp only
    rw [h]
    rcases hx : extract_table_data env d.1 p.1 d.2 p.2
        (logSt st ("\n▶️ Scraping for District: " ++ d.2 ++ ", Post: " ++ p.2)) with ⟨st2, o⟩
    rw [hx] at he
    have ho : o = some e := he
    subst ho
    simp [logSt]

/-- Witness for the amended C1: in `envWaitRaise` the submit step succeeds
and the table wait raises; the combination step raises nothing, the loop
proceeds, and the extraction error is logged. -/
theorem extract_exceptions_caught_per_combination_witness :
    (inner_step envWaitRaise ("1", "D1") ("2", "P1") st0).2 = none ∧
    posts_loop envWaitRaise ("1", "D1") [("2", "P1")] st0 =
      posts_loop envWaitRaise ("1", "D1") []
        (inner_step envWaitRaise ("1", "D1") ("2", "P1") st0).1 ∧
    ∀ e, (extract_table_data envWaitRaise "1" "2" "D1" "P1"
            (logSt st0 ("\n▶️ Scraping for District: " ++ "D1" ++ ", Post: " ++ "P1"))).2 = some e →
      ("❌ Error while extracting table: " ++ e) ∈
        (inner_step envWaitRaise ("1", "D1") ("2", "P1") st0).1.log :=
  extract_exceptions_caught_per_combination envWaitRaise ("1", "D1") ("2", "P1") [] st0
    (by decide)

/-- C2 counterexample: in `envFetch404` both document downloads of `rowFull`
fail with a 404 and the failures are logged, yet the appended record keeps
the constructed destination path "downloads/Cand_photo.jpg" in the photo
path field — not the empty string the claim requires. -/
theorem failed_download_path_not_blank :
    ((extract_row envFetch404 st0 rowFull).csv.getD 0 []).getD 12 "" =
      "downloads/Cand_photo.jpg" ∧
    "downloads/Cand_photo.jpg" ≠ "" ∧
    (extract_row envFetch404 st0 rowFull).csv.length = 1 ∧
    "❌ Failed to download http://img: HTTPError: 404" ∈
      (extract_row envFetch404 st0 rowFull).log := by
  decide

/-- C2 (amended): for every processed row and for each of its two documents
(photo or affidavit), if the document URL is non-empty and its download
fails for any reason — the fetch raises, the status check raises, or the
file write raises, i.e. the body of `download_file` errors — the record is
still appended and the failure is logged with the URL, but the path field
for the failed document holds the constructed destination path, not the
empty string; the path field is empty only when the URL itself is absent
or empty. -/
theorem failed_download_keeps_constructed_path (env : Env) (st : St) (row : Row)
    (h15 : 15 ≤ row.cells.length) :
    ∃ r, (extract_row env st row).csv = st.csv ++ [r] ∧
      (∀ e s, row.imgSrc.getD "" ≠ "" →
        download_body env (row.imgSrc.getD "")
          (pathJoin download_dir (sanitize (cellText row 6) ++ "_photo.jpg")) s = .error e →
        r.getD 12 "" = pathJoin download_dir (sanitize (cellText row 6) ++ "_photo.jpg") ∧
        ("❌ Failed to download " ++ row.imgSrc.getD "" ++ ": " ++ e)
          ∈ (extract_row env st row).log) ∧
      (∀ e s, row.aHref.getD "" ≠ "" →
        download_body env (row.aHref.getD "")
          (pathJoin download_dir (sanitize (cellText row 6) ++ "_affidavit.pdf")) s = .error e →
        r.getD 13 "" = pathJoin download_dir (sanitize (cellText row 6) ++ "_affidavit.pdf") ∧
        ("❌ Failed to download " ++ row.aHref.getD "" ++ ": " ++ e)
          ∈ (extract_row env st row).log) := by
  have h : ¬row.cells.length < 15 := not_lt.mpr h15
  obtain ⟨hcsv, _⟩ := extract_row_csv_eq env st row h
  refine ⟨_, hcsv, ?_, ?_⟩
  · intro e s hp hbody
    refine ⟨by simp [List.getD_cons_succ, List.getD_cons_zero, hp], ?_⟩
    rw [extract_row_log_eq env st row h]
    have hfp : download_file env (row.imgSrc.getD "")
        (pathJoin download_dir (sanitize (cellText row 6) ++ "_photo.jpg")) st =
        { st with downloads := st.downloads ++ [row.imgSrc.getD ""],
                  log := st.log ++
                    ["❌ Failed to download " ++ row.imgSrc.getD "" ++ ": " ++ e] } :=
      download_file_error env _ _ st e (download_body_error_st env _ _ e hbody)
    by_cases ha : row.aHref.getD "" = ""
    · rw [if_pos ha, if_neg hp, hfp]
      simp
    · rw [if_neg ha, if_neg hp]
      refine download_file_log_mono env _ _ _ _ ?_
      rw [hfp]
      simp
  · intro e s ha hbody
    refine ⟨by simp [List.getD_cons_succ, List.getD_cons_zero, ha], ?_⟩
    rw [extract_row_log_eq env st row h]
    rw [if_neg ha]
    set st1 := if row.imgSrc.getD "" = "" then st
      else download_file env (row.imgSrc.getD "")
        (pathJoin download_dir (sanitize (cellText row 6) ++ "_photo.jpg")) st with hst1
    have hfa : download_file env (row.aHref.getD "")
        (pathJoin download_dir (sanitize (cellText row 6) ++ "_affidavit.pdf")) st1 =
        { st1 with downloads := st1.downloads ++ [row.aHref.getD ""],
                   log := st1.log ++
                     ["❌ Failed to download " ++ row.aHref.getD "" ++ ": " ++ e] } :=
      download_file_error env _ _ st1 e (download_body_error_st env _ _ e hbody)
    rw [hfa]
    simp

/-- Witness for the amended C2: in `envFetch404` both downloads of `rowFull`
fail with a 404; the appended record keeps both constructed paths and both
failures are logged. -/
theorem failed_download_keeps_constructed_path_witness :
    ∃ r, (extract_row envFetch404 st0 rowFull).csv = st0.csv ++ [r] ∧
      r.getD 12 "" = pathJoin download_dir (sanitize (cellText rowFull 6) ++ "_photo.jpg") ∧
      ("❌ Failed to download " ++ rowFull.imgSrc.getD "" ++ ": " ++ "HTTPError: 404")
        ∈ (extract_row envFetch404 st0 rowFull).log ∧
      r.getD 13 "" = pathJoin download_dir (sanitize (cellText rowFull 6) ++ "_affidavit.pdf") ∧
      ("❌ Failed to download " ++ rowFull.aHref.getD "" ++ ": " ++ "HTTPError: 404")
        ∈ (extract_row envFetch404 st0 rowFull).log := by
  obtain ⟨r, hcsv, hphoto, haff⟩ :=
    failed_download_keeps_constructed_path envFetch404 st0 rowFull (by decide)
  obtain ⟨h12, hlogp⟩ := hphoto "HTTPError: 404" st0 (by decide) (by rfl)
  obtain ⟨h13, hloga⟩ := haff "HTTPError: 404" st0 (by decide) (by rfl)
  exact ⟨r, hcsv, h12, hlogp, h13, hloga⟩

/-- C3 counterexample: in `envWrongCells` the only selectable combination is
labelled (D1, P1), yet the single record a run appends carries "NOTD1" as
its district field — the value of the row's own district cell, not the
district of the combination under which it was found. -/
theorem record_combination_mismatch :
    get_select_options envWrongCells.districtOptions = [("1", "D1")] ∧
    (run_all_combinations envWrongCells st0).csv.length = 1 ∧
    ((run_all_combinations envWrongCells st0).csv.getD 0 []).getD 0 "" = "NOTD1" ∧
    "NOTD1" ≠ "D1" := by
  decide

/-- C3 (amended): the district and post fields of an appended record are
read from the row's own table cells (columns 2 and 1), not from the
selected combination: `extract_table_data` does not depend on the
district/post labels it is passed, and the first two fields of every
appended record equal the trimmed texts of cells 2 and 1. -/
theorem record_fields_come_from_row_cells :
    (∀ env dVal pVal district post district2 post2 st,
      extract_table_data env dVal pVal district post st =
        extract_table_data env dVal pVal district2 post2 st) ∧
    (∀ env st row, 15 ≤ row.cells.length →
      ∃ r, (extract_row env st row).csv = st.csv ++ [r] ∧
        r.getD 0 "" = cellText row 2 ∧ r.getD 1 "" = cellText row 1) := by
  refine ⟨fun env dVal pVal d p d2 p2 st => rfl, ?_⟩
  intro env st row h15
  obtain ⟨hcsv, _⟩ := extract_row_csv_eq env st row (not_lt.mpr h15)
  exact ⟨_, hcsv, rfl, rfl⟩

/-- Witness for the amended C3 at `envHappy` and `rowFull`. -/
theorem record_fields_come_from_row_cells_witness :
    ∃ r, (extract_row envHappy st0 rowFull).csv = st0.csv ++ [r] ∧
      r.getD 0 "" = cellText rowFull 2 ∧ r.getD 1 "" = cellText rowFull 1 :=
  record_fields_come_from_row_cells.2 envHappy st0 rowFull (by decide)

/-- C9 counterexample: in `envMenuFail` the menu-expansion click raises.
The run terminates immediately with only a fatal-error log line and no
record, even though every table held a row — the navigator does not proceed
to the results page, refuting the claim that a failure of that click is
non-fatal. -/
theorem menu_click_failure_is_fatal :
    (run_all_combinations envMenuFail st0).log = ["❌ Fatal Error: menufail"] ∧
    (run_all_combinations envMenuFail st0).csv = [] ∧
    envMenuFail.tableRows "1" "2" ≠ [] := by
  decide

/-- C9 (amended): a failure of the menu-expansion click propagates out of
`navigate` and is caught only by the run-level fatal handler: the run is
aborted before any combination is attempted, the error is logged as fatal,
and teardown still runs. -/
theorem menu_click_failure_aborts (env : Env) (st : St) (e : Exn)
    (h1 : env.gotoLanding = none) (h2 : env.menuClick = some e) :
    navigate env = some e ∧
    run_all_combinations env st = cleanup (logSt st ("❌ Fatal Error: " ++ e)) := by
  have hn : navigate env = some e := by
    unfold navigate
    rw [h1, h2]
  have hb : run_body env st = (st, some e) := by
    unfold run_body
    rw [hn]
  refine ⟨hn, ?_⟩
  unfold run_all_combinations
  rw [hb]

/-- Witness for the amended C9 at `envMenuFail`. -/
theorem menu_click_failure_aborts_witness :
    navigate envMenuFail = some "menufail" ∧
    run_all_combinations envMenuFail st0 =
      cleanup (logSt st0 ("❌ Fatal Error: " ++ "menufail")) :=
  menu_click_failure_aborts envMenuFail st0 "menufail" rfl rfl

end FirstPage
